import Mathlib

/-!
Verification of the `webp-to-png` repository: a shallow embedding of the two
scripts `src/main.py` and `src/webp-to-png.py` (both defining a function
`convert_webp_to_png`), together with proofs of the specification claims.

Strings are modelled by Lean `String` (lists of characters); paths are plain
strings.  The filesystem is modelled explicitly; the external image codec
(PIL) is an oracle parameter mapping a compression level and file content to
either a PNG payload or an error.  Python library primitives used by the
scripts (`str.strip`, `str.lower`, `str.endswith`, `str.replace`,
`os.path.basename`, `os.path.join`, `pathlib.Path.suffix`,
`pathlib.Path.with_suffix`, `pathlib.Path.glob` as of CPython 3.11) are
transliterated below.
-/

namespace WebpToPng

/-- Characters removed by Python's `str.strip()` with no argument. -/
def isPySpace (c : Char) : Bool :=
  c = ' ' || c = '\t' || c = '\n' || c = '\x0d' || c = '\x0b' || c = '\x0c'

/-- Python `str.strip()`: remove leading and trailing whitespace. -/
def pyStrip (s : String) : String :=
  ⟨(((s.data.dropWhile isPySpace).reverse.dropWhile isPySpace).reverse)⟩

/-- Python `str.lower()` (ASCII fragment, as used by both scripts). -/
def pyLower (s : String) : String :=
  ⟨s.data.map Char.toLower⟩

/-- The normalization `input(...).strip().lower()` applied by both scripts
to the operator response at a collision prompt. -/
def pyNormalize (s : String) : String :=
  pyLower (pyStrip s)

/-- Python `s.endswith(suf)`. -/
def ends (s suf : String) : Bool :=
  suf.data.isSuffixOf s.data

/-- `os.path.basename` / final component of a path: characters after the
last slash. -/
def basename (p : String) : String :=
  ⟨p.data.foldl (fun acc c => if c = '/' then [] else acc ++ [c]) []⟩

/-- `os.path.join(a, b)` (also `pathlib` `/` on the shapes arising here):
an absolute second component wins, otherwise the components are joined with
a single separator. -/
def osPathJoin (a b : String) : String :=
  if b.data.head? = some '/' then b
  else if a = "" then b
  else if a.data.getLast? = some '/' then a ++ b
  else a ++ "/" ++ b

/-- `pathlib.PurePath.suffix` applied to a final component `n`: the part of
`n` from its last dot on, provided that dot is neither the first nor the
last character; otherwise the empty string. -/
def nameSuffix (n : String) : String :=
  let after := (n.data.reverse.takeWhile (fun c => c ≠ '.')).reverse
  if after.length + 1 < n.data.length ∧ after ≠ [] then ⟨'.' :: after⟩ else ""

/-- `pathlib.PurePath.suffix` of a path: suffix of its final component. -/
def pathSuffix (p : String) : String :=
  nameSuffix (basename p)

/-- The name of `PurePath.with_suffix(newSuf)`: the final component with its
current suffix removed and `newSuf` appended. -/
def nameWithSuffix (n newSuf : String) : String :=
  ⟨n.data.take (n.data.length - (nameSuffix n).data.length) ++ newSuf.data⟩

/-- `p.with_suffix(newSuf).name` as used by `webp-to-png.py`. -/
def withSuffixName (p newSuf : String) : String :=
  nameWithSuffix (basename p) newSuf

/-- Auxiliary recursion for Python `str.replace`: replace every
non-overlapping occurrence of `pat` in `s` by `rep`, scanning left to
right.  The fuel argument (one unit per character examined) makes the
recursion structural; `pyReplace` supplies enough fuel. -/
def pyReplaceAux (pat rep : List Char) : Nat → List Char → List Char
  | _, [] => []
  | 0, s => s
  | fuel + 1, c :: rest =>
    if pat ≠ [] ∧ pat.isPrefixOf (c :: rest) then
      rep ++ pyReplaceAux pat rep fuel ((c :: rest).drop pat.length)
    else
      c :: pyReplaceAux pat rep fuel rest

/-- Python `s.replace(pat, rep)` (for the nonempty patterns used here). -/
def pyReplace (s pat rep : String) : String :=
  if pat.data = [] then s else ⟨pyReplaceAux pat.data rep.data s.data.length s.data⟩

/-- The destination name dictated by the spec: the candidate's base name
with its final `.webp` extension replaced by `.png`. -/
def specDestName (n : String) : String :=
  ⟨n.data.take (n.data.length - 5) ++ ".png".data⟩

/-! ## Filesystem model -/

/-- A filesystem: regular files with contents, existing directories, the
directory-listing function (`os.listdir` / `scandir` order), the current
working directory and the parent function on paths. -/
structure FS where
  files : List (String × String)
  dirs : List String
  listing : String → List String
  cwd : String
  parent : String → String

def lookupFile (fs : FS) (p : String) : Option String :=
  (fs.files.find? (fun e => e.1 = p)).map (fun e => e.2)

/-- `os.path.isfile` / `Path.is_file`. -/
def isFile (fs : FS) (p : String) : Bool :=
  (lookupFile fs p).isSome

/-- `os.path.isdir` / `Path.is_dir`. -/
def isDir (fs : FS) (p : String) : Bool :=
  fs.dirs.contains p

/-- `os.path.exists` / `Path.exists`. -/
def pathExists (fs : FS) (p : String) : Bool :=
  isFile fs p || isDir fs p

/-- Writing (or overwriting) a regular file. -/
def writeFile (fs : FS) (p c : String) : FS :=
  { fs with files := (p, c) :: fs.files }

/-- `os.makedirs(p, exist_ok=True)` / `Path.mkdir(parents=True, exist_ok=True)`. -/
def mkdirs (fs : FS) (p : String) : FS :=
  if isDir fs p then fs else { fs with dirs := p :: fs.dirs }

/-! ## Codec oracle -/

/-- An error raised by the external image codec; `ioErr` records whether the
exception is an `IOError`/`OSError` (the distinction `webp-to-png.py` makes
between its two handlers). -/
structure CodecErr where
  ioErr : Bool
  msg : String
deriving DecidableEq

/-- The external image codec: given a PNG compression level and the bytes of
the source file, either the encoded PNG bytes or an error. -/
def Codec : Type := Nat → String → Except CodecErr String

/-- `Image.open(path)` followed by `img.save(..., compress_level=lvl)`:
a missing file raises `FileNotFoundError` (an `OSError`), otherwise the
codec decides. -/
def openAndDecode (codec : Codec) (fs : FS) (lvl : Nat) (path : String) :
    Except CodecErr String :=
  match lookupFile fs path with
  | none => Except.error ⟨true, "No such file or directory"⟩
  | some c => codec lvl c

def exceptOk (r : Except CodecErr String) : Bool :=
  match r with
  | Except.ok _ => true
  | Except.error _ => false

def okVal (r : Except CodecErr String) : String :=
  match r with
  | Except.ok v => v
  | Except.error _ => ""

/-! ## Run state -/

/-- The observable state of one `convert_webp_to_png` run: the filesystem,
the remaining operator responses on standard input, the three counters, and
the lines written to standard output, standard error and the log sink. -/
structure RunState where
  fs : FS
  inputs : List String
  successful : Nat
  failed : Nat
  skipped : Nat
  out : List String
  err : List String
  log : List String

/-- `input(...)`: the prompt has already been echoed; consume one response. -/
def readLine (st : RunState) : String × RunState :=
  (st.inputs.headD "", { st with inputs := st.inputs.tail })

/-! ## `src/main.py` -/

/-- `compress_level = 1` in `src/main.py` (line 27). -/
def mainCompressLevel : Nat := 1

def mainPromptLine (targetFilename : String) : String :=
  "The file " ++ targetFilename ++
    " already exists in the target directory. Replace or skip? (r/s): "

def mainErrLine (source : String) : String :=
  "Error: The source " ++ source ++ " is not a valid .webp file or does not exist."

def mainSummary (s f k : Nat) : String :=
  "Conversion completed. " ++ toString s ++ " successful, " ++ toString f ++
    " failed, " ++ toString k ++ " skipped."

/-- The conversion attempt inside `process_file` of `src/main.py`
(lines 44-50): open, decode, save; on any exception log and count a
failure. -/
def mainAttempt (codec : Codec) (st : RunState)
    (sourceFile targetFile filename : String) : RunState :=
  match openAndDecode codec st.fs mainCompressLevel sourceFile with
  | Except.ok png =>
    { st with
      fs := writeFile st.fs targetFile png
      successful := st.successful + 1
      log := st.log ++ ["Successfully converted " ++ filename ++ " to .png."] }
  | Except.error e =>
    { st with
      failed := st.failed + 1
      log := st.log ++ ["Failed to convert " ++ filename ++ ". Error: " ++ e.msg] }

/-- `process_file` of `src/main.py` (lines 29-50). -/
def mainProcessFile (codec : Codec) (st : RunState)
    (sourceFile targetDir : String) : RunState :=
  let filename := basename sourceFile
  if ends filename ".webp" then
    let targetFilename := pyReplace filename ".webp" ".png"
    let targetFile := osPathJoin targetDir targetFilename
    if pathExists st.fs targetFile then
      let st1 := { st with out := st.out ++ [mainPromptLine targetFilename] }
      let r := readLine st1
      if pyNormalize r.1 ≠ "r" then
        { r.2 with
          skipped := r.2.skipped + 1
          log := r.2.log ++ ["Skipped conversion of " ++ filename ++ "."] }
      else
        mainAttempt codec r.2 sourceFile targetFile filename
    else
      mainAttempt codec st sourceFile targetFile filename
  else
    st

/-- `convert_webp_to_png` of `src/main.py` (lines 11-64). -/
def mainConvert (codec : Codec) (fs0 : FS) (inputs : List String)
    (source targetDir : String) (batchMode : Bool) : RunState :=
  let fs := mkdirs fs0 targetDir
  let st0 : RunState := ⟨fs, inputs, 0, 0, 0, [], [], []⟩
  let st1 :=
    if batchMode && isDir fs source then
      (fs.listing source).foldl
        (fun st n => mainProcessFile codec st (osPathJoin source n) targetDir) st0
    else if isFile fs source && ends source ".webp" then
      mainProcessFile codec st0 source targetDir
    else
      { st0 with
        log := st0.log ++
          ["The source " ++ source ++ " is not a valid .webp file or does not exist."]
        out := st0.out ++ [mainErrLine source] }
  { st1 with log := st1.log ++ [mainSummary st1.successful st1.failed st1.skipped] }

/-! ## `src/webp-to-png.py` -/

/-- `compress_level = 6` in `src/webp-to-png.py` (line 61). -/
def webpCompressLevel : Nat := 6

def webpErrLine (source : String) : String :=
  "Error: The source " ++ source ++ " is not a valid .webp file or does not exist."

def webpSummary (s f k : Nat) : String :=
  "Completed. Success: " ++ toString s ++ ", Failed: " ++ toString f ++
    ", Skipped: " ++ toString k

/-- Path resolution at the top of `convert_webp_to_png` in
`src/webp-to-png.py` (lines 38-51). -/
def resolvePaths (fs : FS) (sourceArg targetDirArg : Option String) :
    String × String :=
  match sourceArg with
  | none => (fs.cwd, fs.cwd)
  | some s =>
    match targetDirArg with
    | some t => (s, t)
    | none =>
      if isFile fs s then (s, fs.parent s)
      else if isDir fs s then (s, s)
      else (s, fs.cwd)

/-- The conversion attempt inside `process_file` of `src/webp-to-png.py`
(lines 73-83), with separate handlers for `IOError` and other exceptions. -/
def webpAttempt (codec : Codec) (st : RunState)
    (sourceFile targetFile : String) : RunState :=
  match openAndDecode codec st.fs webpCompressLevel sourceFile with
  | Except.ok png =>
    { st with
      fs := writeFile st.fs targetFile png
      successful := st.successful + 1
      out := st.out ++ ["Converted: " ++ basename sourceFile] }
  | Except.error e =>
    if e.ioErr then
      { st with
        failed := st.failed + 1
        log := st.log ++ ["IOError for " ++ basename sourceFile ++ ": " ++ e.msg] }
    else
      { st with
        failed := st.failed + 1
        log := st.log ++
          ["Unexpected error for " ++ basename sourceFile ++ ": " ++ e.msg] }

/-- `process_file` of `src/webp-to-png.py` (lines 63-83). -/
def webpProcessFile (codec : Codec) (st : RunState)
    (sourceFile targetDir : String) : RunState :=
  if pathSuffix sourceFile = ".webp" then
    let targetFile := osPathJoin targetDir (withSuffixName sourceFile ".png")
    if pathExists st.fs targetFile then
      let st1 := { st with
        out := st.out ++
          ["File " ++ targetFile ++ " already exists. Replace? (y/n): "] }
      let r := readLine st1
      if pyNormalize r.1 ≠ "y" then
        { r.2 with
          skipped := r.2.skipped + 1
          out := r.2.out ++ ["Skipped: " ++ basename targetFile] }
      else
        webpAttempt codec r.2 sourceFile targetFile
    else
      webpAttempt codec st sourceFile targetFile
  else
    st

/-- `convert_webp_to_png` of `src/webp-to-png.py` (lines 38-95).  The glob
`source.glob('*.webp')` is, in CPython 3.11 `pathlib`, exactly the listing
entries whose name ends with `.webp` (hidden files included, the suffix
match case-sensitive), in listing order. -/
def webpConvert (codec : Codec) (fs0 : FS) (inputs : List String)
    (sourceArg targetDirArg : Option String) (batchMode : Bool) : RunState :=
  let p := resolvePaths fs0 sourceArg targetDirArg
  let source := p.1
  let targetDir := p.2
  let fs := if pathExists fs0 targetDir then fs0 else mkdirs fs0 targetDir
  let created : List String :=
    if pathExists fs0 targetDir then []
    else ["Created target directory: " ++ targetDir]
  let st0 : RunState := ⟨fs, inputs, 0, 0, 0, created, [], []⟩
  let st1 :=
    if batchMode && isDir fs source then
      ((fs.listing source).filter (fun n => ends n ".webp")).foldl
        (fun st n => webpProcessFile codec st (osPathJoin source n) targetDir) st0
    else if isFile fs source && pathSuffix source = ".webp" then
      webpProcessFile codec st0 source targetDir
    else
      { st0 with err := st0.err ++ [webpErrLine source] }
  { st1 with log := st1.log ++ [webpSummary st1.successful st1.failed st1.skipped] }

/-! ## Derived abbreviations used in the statements -/

/-- Sum of the three run counters. -/
def sumCt (st : RunState) : Nat :=
  st.successful + st.failed + st.skipped

/-- The entries of a listing that end with `.webp` (the effective batch
candidates of `src/main.py`, and the glob candidates of
`src/webp-to-png.py`). -/
def webpEntries (names : List String) : List String :=
  names.filter (fun n => ends n ".webp")

/-- The destination path computed by `src/main.py` for a candidate base
name `n`. -/
def mainDestPath (targetDir n : String) : String :=
  osPathJoin targetDir (pyReplace n ".webp" ".png")

/-- The destination path computed by `src/webp-to-png.py` for a candidate
base name `n`. -/
def webpDestPath (targetDir n : String) : String :=
  osPathJoin targetDir (nameWithSuffix n ".png")

/-- Outcome of the codec on candidate `n`'s source content under
`src/main.py`'s compression level. -/
def mainOutcome (codec : Codec) (c : String → String) (n : String) :
    Except CodecErr String :=
  codec mainCompressLevel (c n)

/-- Outcome of the codec on candidate `n`'s source content under
`src/webp-to-png.py`'s compression level. -/
def webpOutcome (codec : Codec) (c : String → String) (n : String) :
    Except CodecErr String :=
  codec webpCompressLevel (c n)

/-- The log line `src/main.py` emits for a candidate `n` whose conversion
is attempted with source content `c n`. -/
def mainLogLine (codec : Codec) (c : String → String) (n : String) : String :=
  match mainOutcome codec c n with
  | Except.ok _ => "Successfully converted " ++ n ++ " to .png."
  | Except.error e => "Failed to convert " ++ n ++ ". Error: " ++ e.msg

/-- The log lines `src/webp-to-png.py` emits for a candidate `n` whose
conversion is attempted with source content `c n` (none on success). -/
def webpLogLines (codec : Codec) (c : String → String) (n : String) : List String :=
  match webpOutcome codec c n with
  | Except.ok _ => []
  | Except.error e =>
    if e.ioErr then ["IOError for " ++ n ++ ": " ++ e.msg]
    else ["Unexpected error for " ++ n ++ ": " ++ e.msg]

/-- The files written by a `src/main.py` batch run over candidates `cands`
(most recent write first, matching the cons-based filesystem model). -/
def mainOkWrites (codec : Codec) (c : String → String) (targetDir : String)
    (cands : List String) : List (String × String) :=
  (cands.filter (fun n => exceptOk (mainOutcome codec c n))).reverse.map
    (fun n => (mainDestPath targetDir n, okVal (mainOutcome codec c n)))

/-- The files written by a `src/webp-to-png.py` batch run over `cands`. -/
def webpOkWrites (codec : Codec) (c : String → String) (targetDir : String)
    (cands : List String) : List (String × String) :=
  (cands.filter (fun n => exceptOk (webpOutcome codec c n))).reverse.map
    (fun n => (webpDestPath targetDir n, okVal (webpOutcome codec c n)))

/-- Number of candidates whose conversion succeeds (`src/main.py`). -/
def mainOkCount (codec : Codec) (c : String → String) (cands : List String) : Nat :=
  (cands.filter (fun n => exceptOk (mainOutcome codec c n))).length

/-- Number of candidates whose conversion fails (`src/main.py`). -/
def mainErrCount (codec : Codec) (c : String → String) (cands : List String) : Nat :=
  (cands.filter (fun n => !exceptOk (mainOutcome codec c n))).length

/-- Number of candidates whose conversion succeeds (`src/webp-to-png.py`). -/
def webpOkCount (codec : Codec) (c : String → String) (cands : List String) : Nat :=
  (cands.filter (fun n => exceptOk (webpOutcome codec c n))).length

/-- Number of candidates whose conversion fails (`src/webp-to-png.py`). -/
def webpErrCount (codec : Codec) (c : String → String) (cands : List String) : Nat :=
  (cands.filter (fun n => !exceptOk (webpOutcome codec c n))).length

/-! ## Concrete fixtures for witnesses and counterexamples -/

/-- A small filesystem: one `.webp` file in directory `d`, a target
directory `t`. -/
def fsA : FS :=
  { files := [("d/x.webp", "W")]
    dirs := ["d", "t"]
    listing := fun p => if p = "d" then ["x.webp"] else []
    cwd := "cw"
    parent := fun _ => "par" }

/-- A filesystem whose source directory holds a file named exactly
`.webp` next to an ordinary candidate. -/
def fsB : FS :=
  { files := [("d/.webp", "W"), ("d/ok.webp", "V")]
    dirs := ["d", "t"]
    listing := fun p => if p = "d" then [".webp", "ok.webp"] else []
    cwd := "cw"
    parent := fun _ => "par" }

/-- Like `fsA` with the destination `t/x.png` already present. -/
def fsC : FS :=
  { files := [("d/x.webp", "W"), ("t/x.png", "OLD")]
    dirs := ["d", "t"]
    listing := fun p => if p = "d" then ["x.webp"] else []
    cwd := "cw"
    parent := fun _ => "par" }

/-- A filesystem with one good and one malformed `.webp` file. -/
def fsD : FS :=
  { files := [("d/x.webp", "W"), ("d/y.webp", "BAD")]
    dirs := ["d", "t"]
    listing := fun p => if p = "d" then ["x.webp", "y.webp"] else []
    cwd := "cw"
    parent := fun _ => "par" }

/-- A run state sitting before a collision prompt: filesystem `fsC` (the
destination `t/x.png` exists) and one pending response `"s"`. -/
def stC : RunState := ⟨fsC, ["s"], 0, 0, 0, [], [], []⟩

/-- A codec that always succeeds, tagging output with the compression
level. -/
def codecA : Codec := fun lvl c => Except.ok ("PNG" ++ toString lvl ++ c)

/-- A codec that fails on the content `"BAD"` and succeeds otherwise. -/
def codecB : Codec := fun lvl c =>
  if c = "BAD" then Except.error ⟨false, "cannot identify image file"⟩
  else Except.ok ("PNG" ++ toString lvl ++ c)

/-! ## Helper lemmas -/

lemma string_eq_of_data (n : String) (l : List Char) (h : n.data = l) : n = ⟨l⟩ := by
  cases n
  exact congrArg String.mk h

lemma pyReplaceAux_unique (pat rep : List Char) (hpat : pat ≠ []) :
    ∀ (stem : List Char) (fuel : Nat), (stem ++ pat).length ≤ fuel →
    (∀ i, i < stem.length → pat.isPrefixOf ((stem ++ pat).drop i) = false) →
    pyReplaceAux pat rep fuel (stem ++ pat) = stem ++ rep := by
  intro stem
  induction stem with
  | nil =>
    intro fuel hfuel _
    obtain ⟨c, rest, hc⟩ : ∃ c rest, pat = c :: rest := by
      cases pat with
      | nil => exact absurd rfl hpat
      | cons c rest => exact ⟨c, rest, rfl⟩
    subst hc
    simp only [List.nil_append] at hfuel ⊢
    obtain ⟨f, hf⟩ : ∃ f, fuel = f + 1 := by
      cases fuel with
      | zero => simp at hfuel
      | succ f => exact ⟨f, rfl⟩
    subst hf
    have hpre : (c :: rest).isPrefixOf (c :: rest) = true := by
      simp [List.isPrefixOf_iff_prefix]
    simp [pyReplaceAux, hpre, List.drop_length]
  | cons a as ih =>
    intro fuel hfuel hocc
    have h0 := hocc 0 (by simp)
    simp only [List.drop_zero] at h0
    simp only [List.cons_append, List.length_cons] at hfuel
    obtain ⟨f, hf⟩ : ∃ f, fuel = f + 1 := by
      cases fuel with
      | zero => omega
      | succ f => exact ⟨f, rfl⟩
    subst hf
    have hcond : ¬ (pat ≠ [] ∧ pat.isPrefixOf (a :: (as ++ pat)) = true) := by
      intro hcon
      rw [List.cons_append] at h0
      simp [hcon.2] at h0
    have hih := ih f (by omega) (fun i hi => by
      have := hocc (i + 1) (by simp; omega)
      simpa using this)
    simp only [List.cons_append, pyReplaceAux, List.append_eq]
    rw [if_neg hcond, hih]

lemma pyReplace_unique (stem : List Char)
    (hocc : ∀ i, i < stem.length →
      (".webp".data.isPrefixOf ((stem ++ ".webp".data).drop i)) = false) :
    pyReplace ⟨stem ++ ".webp".data⟩ ".webp" ".png" = ⟨stem ++ ".png".data⟩ := by
  have hne : (".webp" : String).data ≠ [] := by decide
  simp only [pyReplace, if_neg hne]
  congr 1
  exact pyReplaceAux_unique ".webp".data ".png".data hne stem _ (le_refl _) hocc

lemma specDestName_append (stem : List Char) :
    specDestName ⟨stem ++ ".webp".data⟩ = ⟨stem ++ ".png".data⟩ := by
  simp only [specDestName]
  congr 1
  have : (stem ++ ".webp".data).length - 5 = stem.length := by
    simp [List.length_append]
  rw [this, List.take_left]

lemma nameSuffix_append_webp (stem : List Char) (h : stem ≠ []) :
    nameSuffix ⟨stem ++ ".webp".data⟩ = ".webp" := by
  have hrev : (stem ++ ".webp".data).reverse
      = 'p' :: 'b' :: 'e' :: 'w' :: '.' :: stem.reverse := by
    simp [List.reverse_append]
  simp only [nameSuffix, hrev]
  have htw : (('p' :: 'b' :: 'e' :: 'w' :: '.' :: stem.reverse).takeWhile
      (fun c => c ≠ '.')) = ['p', 'b', 'e', 'w'] := by
    simp [List.takeWhile_cons]
  rw [htw]
  simp [List.length_append, h]

lemma nameWithSuffix_of_webp (n : String) (h : nameSuffix n = ".webp") :
    nameWithSuffix n ".png" = specDestName n := by
  simp only [nameWithSuffix, specDestName, h]
  rfl

lemma ends_decomp (n : String) (h : ends n ".webp" = true) :
    ∃ stem, n.data = stem ++ ".webp".data := by
  have := (List.isSuffixOf_iff_suffix).mp h
  obtain ⟨t, ht⟩ := this
  exact ⟨t, ht.symm⟩

lemma nameSuffix_of_ends (n : String) (h : ends n ".webp" = true)
    (hne : n ≠ ".webp") : nameSuffix n = ".webp" := by
  obtain ⟨stem, hs⟩ := ends_decomp n h
  have hn : n = ⟨stem ++ ".webp".data⟩ := string_eq_of_data n _ hs
  have hstem : stem ≠ [] := by
    intro hc
    apply hne
    rw [hn, hc]
    rfl
  rw [hn]
  exact nameSuffix_append_webp stem hstem

/-- C1: in the path-resolution-aware script (`src/webp-to-png.py`), an
absent source resolves both source and target to the current directory; an
existing-file source with absent target resolves the target to the source's
parent; an existing-directory source with absent target resolves the target
to the source; a nonexistent source with absent target resolves the target
to the current directory. -/
theorem c1_path_resolution (fs : FS) (s : String) :
    resolvePaths fs none none = (fs.cwd, fs.cwd)
    ∧ (isFile fs s = true → resolvePaths fs (some s) none = (s, fs.parent s))
    ∧ (isFile fs s = false → isDir fs s = true →
        resolvePaths fs (some s) none = (s, s))
    ∧ (isFile fs s = false → isDir fs s = false →
        resolvePaths fs (some s) none = (s, fs.cwd)) := by
  refine ⟨rfl, ?_, ?_, ?_⟩
  · intro h
    simp [resolvePaths, h]
  · intro h1 h2
    simp [resolvePaths, h1, h2]
  · intro h1 h2
    simp [resolvePaths, h1, h2]

/-- Witness for C1 on the concrete filesystem `fsA`. -/
theorem c1_path_resolution_witness :
    resolvePaths fsA none none = ("cw", "cw")
    ∧ resolvePaths fsA (some "d/x.webp") none = ("d/x.webp", "par")
    ∧ resolvePaths fsA (some "d") none = ("d", "d")
    ∧ resolvePaths fsA (some "zz") none = ("zz", "cw") :=
  ⟨(c1_path_resolution fsA "zz").1,
   (c1_path_resolution fsA "d/x.webp").2.1 (by decide),
   (c1_path_resolution fsA "d").2.2.1 (by decide) (by decide),
   (c1_path_resolution fsA "zz").2.2.2 (by decide) (by decide)⟩

/-- C3 counterexample: on the candidate name `a.webp.webp`, `src/main.py`
computes destination name `a.png.png` (every occurrence of `.webp` is
replaced), which differs from the name obtained by replacing only the final
extension. -/
theorem c3_counterexample :
    ends "a.webp.webp" ".webp" = true
    ∧ pyReplace "a.webp.webp" ".webp" ".png" = "a.png.png"
    ∧ specDestName "a.webp.webp" = "a.webp.png"
    ∧ pyReplace "a.webp.webp" ".webp" ".png" ≠ specDestName "a.webp.webp" := by
  refine ⟨by decide, by decide, by decide, by decide⟩

/-- C3 (amended): `src/webp-to-png.py` always replaces only the final
extension (for any candidate with suffix `.webp`); `src/main.py` replaces
every occurrence of the substring `.webp`, which agrees with replacing only
the final extension exactly when `.webp` occurs in the name only as its
final extension. -/
theorem c3_destination_naming (n : String) (stem : List Char) :
    (nameSuffix n = ".webp" → nameWithSuffix n ".png" = specDestName n)
    ∧ ((∀ i, i < stem.length →
          (".webp".data.isPrefixOf ((stem ++ ".webp".data).drop i)) = false) →
        pyReplace ⟨stem ++ ".webp".data⟩ ".webp" ".png"
          = specDestName ⟨stem ++ ".webp".data⟩) := by
  constructor
  · exact nameWithSuffix_of_webp n
  · intro hocc
    rw [pyReplace_unique stem hocc, specDestName_append]

/-- Witness for C3 (amended) on the name `photo.webp`. -/
theorem c3_destination_naming_witness :
    nameWithSuffix "photo.webp" ".png" = specDestName "photo.webp"
    ∧ pyReplace "photo.webp" ".webp" ".png" = specDestName "photo.webp" :=
  ⟨(c3_destination_naming "photo.webp" "photo".data).1 (by decide),
   (c3_destination_naming "photo.webp" "photo".data).2 (by decide)⟩

/-- C4: at a collision, any response other than the replace token makes
both scripts increment the skipped counter by one, consume the response,
leave the filesystem (in particular the destination file) untouched, and
never invoke the codec (the result does not depend on the codec). -/
theorem c4_skip_semantics (codec codec2 : Codec) (st : RunState)
    (sourceFile targetDir : String)
    (hmName : ends (basename sourceFile) ".webp" = true)
    (hmEx : pathExists st.fs
      (osPathJoin targetDir (pyReplace (basename sourceFile) ".webp" ".png")) = true)
    (hmResp : pyNormalize (st.inputs.headD "") ≠ "r")
    (hwSuf : pathSuffix sourceFile = ".webp")
    (hwEx : pathExists st.fs
      (osPathJoin targetDir (withSuffixName sourceFile ".png")) = true)
    (hwResp : pyNormalize (st.inputs.headD "") ≠ "y") :
    mainProcessFile codec st sourceFile targetDir
      = { st with
          inputs := st.inputs.tail
          skipped := st.skipped + 1
          out := st.out ++ [mainPromptLine (pyReplace (basename sourceFile) ".webp" ".png")]
          log := st.log ++ ["Skipped conversion of " ++ basename sourceFile ++ "."] }
    ∧ mainProcessFile codec2 st sourceFile targetDir
      = mainProcessFile codec st sourceFile targetDir
    ∧ webpProcessFile codec st sourceFile targetDir
      = { st with
          inputs := st.inputs.tail
          skipped := st.skipped + 1
          out := (st.out ++ ["File " ++ osPathJoin targetDir (withSuffixName sourceFile ".png")
              ++ " already exists. Replace? (y/n): "])
            ++ ["Skipped: "
              ++ basename (osPathJoin targetDir (withSuffixName sourceFile ".png"))] }
    ∧ webpProcessFile codec2 st sourceFile targetDir
      = webpProcessFile codec st sourceFile targetDir := by
  have hmain : ∀ cd : Codec, mainProcessFile cd st sourceFile targetDir
      = { st with
          inputs := st.inputs.tail
          skipped := st.skipped + 1
          out := st.out ++ [mainPromptLine (pyReplace (basename sourceFile) ".webp" ".png")]
          log := st.log ++ ["Skipped conversion of " ++ basename sourceFile ++ "."] } := by
    intro cd
    simp only [mainProcessFile, hmName, if_true, readLine]
    rw [if_pos hmEx, if_pos hmResp]
  have hwebp : ∀ cd : Codec, webpProcessFile cd st sourceFile targetDir
      = { st with
          inputs := st.inputs.tail
          skipped := st.skipped + 1
          out := (st.out ++ ["File " ++ osPathJoin targetDir (withSuffixName sourceFile ".png")
              ++ " already exists. Replace? (y/n): "])
            ++ ["Skipped: "
              ++ basename (osPathJoin targetDir (withSuffixName sourceFile ".png"))] } := by
    intro cd
    simp only [webpProcessFile, readLine]
    rw [if_pos hwSuf, if_pos hwEx, if_pos hwResp]
  exact ⟨hmain codec, (hmain codec2).trans (hmain codec).symm,
    hwebp codec, (hwebp codec2).trans (hwebp codec).symm⟩

/-- Witness for C4 on the concrete state `stC` with response `"s"`. -/
theorem c4_skip_semantics_witness :
    mainProcessFile codecA stC "d/x.webp" "t"
      = { stC with
          inputs := stC.inputs.tail
          skipped := stC.skipped + 1
          out := stC.out ++ [mainPromptLine (pyReplace (basename "d/x.webp") ".webp" ".png")]
          log := stC.log ++ ["Skipped conversion of " ++ basename "d/x.webp" ++ "."] } :=
  (c4_skip_semantics codecA codecB stC "d/x.webp" "t" (by decide) (by decide)
    (by decide) (by decide) (by decide) (by decide)).1

/-! ## Filesystem helper lemmas -/

@[simp] lemma mkdirs_files (fs : FS) (p : String) : (mkdirs fs p).files = fs.files := by
  simp only [mkdirs]
  split <;> rfl

@[simp] lemma mkdirs_listing (fs : FS) (p : String) :
    (mkdirs fs p).listing = fs.listing := by
  simp only [mkdirs]
  split <;> rfl

@[simp] lemma lookupFile_mkdirs (fs : FS) (p q : String) :
    lookupFile (mkdirs fs p) q = lookupFile fs q := by
  simp [lookupFile]

@[simp] lemma isFile_mkdirs (fs : FS) (p q : String) :
    isFile (mkdirs fs p) q = isFile fs q := by
  simp [isFile]

lemma isDir_mkdirs_of_ne (fs : FS) (p t : String) (h : isDir fs p = false)
    (hne : p ≠ t) : isDir (mkdirs fs t) p = false := by
  simp only [mkdirs]
  split
  · exact h
  · simp only [isDir, List.contains_cons] at h ⊢
    rw [Bool.or_eq_false_iff]
    exact ⟨beq_eq_false_iff_ne.mpr hne, h⟩

lemma mainAttempt_skipped (codec : Codec) (st : RunState)
    (sourceFile targetFile filename : String) :
    (mainAttempt codec st sourceFile targetFile filename).skipped = st.skipped := by
  simp only [mainAttempt]
  split <;> rfl

lemma webpAttempt_skipped (codec : Codec) (st : RunState)
    (sourceFile targetFile : String) :
    (webpAttempt codec st sourceFile targetFile).skipped = st.skipped := by
  simp only [webpAttempt]
  split
  · rfl
  · split <;> rfl

/-! ## String-normalization helper lemmas -/

lemma dropWhile_all {p : Char → Bool} {l : List Char}
    (h : ∀ a ∈ l, p a = true) : l.dropWhile p = [] := by
  induction l with
  | nil => rfl
  | cons a as ih =>
    rw [List.dropWhile_cons_of_pos (h a (by simp))]
    exact ih (fun a ha => h a (by simp [ha]))

lemma pyStrip_pre (pre x : List Char) (h : ∀ ch ∈ pre, isPySpace ch = true) :
    pyStrip ⟨pre ++ x⟩ = pyStrip ⟨x⟩ := by
  simp only [pyStrip]
  rw [List.dropWhile_append_of_pos h]

lemma pyStrip_post (x post : List Char) (h : ∀ ch ∈ post, isPySpace ch = true) :
    pyStrip ⟨x ++ post⟩ = pyStrip ⟨x⟩ := by
  simp only [pyStrip]
  rw [List.dropWhile_append]
  by_cases hx : (x.dropWhile isPySpace).isEmpty
  · rw [if_pos hx]
    rw [dropWhile_all h]
    rw [List.isEmpty_iff] at hx
    rw [hx]
  · rw [if_neg hx]
    rw [List.reverse_append, List.dropWhile_append_of_pos (by
      intro ch hch
      exact h ch (by simpa using hch))]

end WebpToPng

namespace WebpToPng

/-- C7 counterexample: on the nonexistent source `nonexistent.webp`,
`src/main.py` prints the error message to standard output and writes
nothing to standard error, contradicting the claim that the message goes
to standard error. -/
theorem c7_counterexample :
    (mainConvert codecA fsA [] "nonexistent.webp" "t" false).err = []
    ∧ (mainConvert codecA fsA [] "nonexistent.webp" "t" false).out
      = [mainErrLine "nonexistent.webp"]
    ∧ (mainConvert codecA fsA [] "nonexistent.webp" "t" false).successful = 0
    ∧ (mainConvert codecA fsA [] "nonexistent.webp" "t" false).failed = 0
    ∧ (mainConvert codecA fsA [] "nonexistent.webp" "t" false).skipped = 0
    ∧ (mainConvert codecA fsA [] "nonexistent.webp" "t" false).fs.files = fsA.files := by
  refine ⟨by decide, by decide, by decide, by decide, by decide, by decide⟩

/-- C7 (amended): an invalid source in non-batch mode produces no output
file, leaves all counters at zero, still logs the summary, and reports an
error message containing the literal source name — on standard output in
`src/main.py`, on standard error in `src/webp-to-png.py`. -/
theorem c7_invalid_source_reporting (codec : Codec) (fs0 : FS)
    (inputs : List String) (source targetDir : String)
    (hm : (isFile fs0 source && ends source ".webp") = false)
    (hw : (isFile fs0 source && pathSuffix source = ".webp") = false) :
    mainConvert codec fs0 inputs source targetDir false
      = { fs := mkdirs fs0 targetDir
          inputs := inputs
          successful := 0, failed := 0, skipped := 0
          out := [mainErrLine source]
          err := []
          log := ["The source " ++ source ++ " is not a valid .webp file or does not exist.",
                  mainSummary 0 0 0] }
    ∧ (mainConvert codec fs0 inputs source targetDir false).fs.files = fs0.files
    ∧ webpConvert codec fs0 inputs (some source) (some targetDir) false
      = { fs := if pathExists fs0 targetDir then fs0 else mkdirs fs0 targetDir
          inputs := inputs
          successful := 0, failed := 0, skipped := 0
          out := if pathExists fs0 targetDir then []
                 else ["Created target directory: " ++ targetDir]
          err := [webpErrLine source]
          log := [webpSummary 0 0 0] }
    ∧ (webpConvert codec fs0 inputs (some source) (some targetDir) false).fs.files
      = fs0.files := by
  have hmain : mainConvert codec fs0 inputs source targetDir false
      = { fs := mkdirs fs0 targetDir
          inputs := inputs
          successful := 0, failed := 0, skipped := 0
          out := [mainErrLine source]
          err := []
          log := ["The source " ++ source ++ " is not a valid .webp file or does not exist.",
                  mainSummary 0 0 0] } := by
    simp [mainConvert, hm]
  have hwebp : webpConvert codec fs0 inputs (some source) (some targetDir) false
      = { fs := if pathExists fs0 targetDir then fs0 else mkdirs fs0 targetDir
          inputs := inputs
          successful := 0, failed := 0, skipped := 0
          out := if pathExists fs0 targetDir then []
                 else ["Created target directory: " ++ targetDir]
          err := [webpErrLine source]
          log := [webpSummary 0 0 0] } := by
    by_cases hp : pathExists fs0 targetDir = true
    · simp [webpConvert, resolvePaths, hp, hw]
    · simp only [Bool.not_eq_true] at hp
      simp [webpConvert, resolvePaths, hp, hw]
  refine ⟨hmain, by rw [hmain]; simp, hwebp, by rw [hwebp]; split <;> simp⟩

/-- Witness for C7 (amended) on a nonexistent source over `fsA`. -/
theorem c7_invalid_source_reporting_witness :
    mainConvert codecA fsA [] "nope.webp" "t" false
      = { fs := mkdirs fsA "t"
          inputs := []
          successful := 0, failed := 0, skipped := 0
          out := [mainErrLine "nope.webp"]
          err := []
          log := ["The source nope.webp is not a valid .webp file or does not exist.",
                  mainSummary 0 0 0] } :=
  (c7_invalid_source_reporting codecA fsA [] "nope.webp" "t"
    (by decide) (by decide)).1

/-- C8 counterexample: batch mode with a source that is not a directory is
not silent.  With source an existing `.webp` file both scripts convert it
(an output file is produced, and `src/webp-to-png.py` prints a line), and
with a nonexistent source `src/webp-to-png.py` prints an explicit error. -/
theorem c8_counterexample :
    (mainConvert codecA fsA [] "d/x.webp" "t" true).successful = 1
    ∧ (mainConvert codecA fsA [] "d/x.webp" "t" true).fs.files
      = [("t/x.png", "PNG1W"), ("d/x.webp", "W")]
    ∧ (webpConvert codecA fsA [] (some "d/x.webp") (some "t") true).successful = 1
    ∧ (webpConvert codecA fsA [] (some "d/x.webp") (some "t") true).out
      = ["Converted: x.webp"]
    ∧ (webpConvert codecA fsA [] (some "nope.webp") (some "t") true).err
      = [webpErrLine "nope.webp"] := by
  refine ⟨by decide, by decide, by decide, by decide, by decide⟩

/-- C8 (amended): when batch mode is requested but the source is not a
directory, both scripts fall back to the single-file (non-batch) logic: the
run is identical to the corresponding non-batch run, so an existing `.webp`
source is converted and any other source yields the invalid-source error. -/
theorem c8_batch_fallthrough (codec : Codec) (fs0 : FS) (inputs : List String)
    (source targetDir : String) (h1 : isDir fs0 source = false)
    (h2 : source ≠ targetDir) :
    mainConvert codec fs0 inputs source targetDir true
      = mainConvert codec fs0 inputs source targetDir false
    ∧ webpConvert codec fs0 inputs (some source) (some targetDir) true
      = webpConvert codec fs0 inputs (some source) (some targetDir) false := by
  have hm : isDir (mkdirs fs0 targetDir) source = false :=
    isDir_mkdirs_of_ne fs0 source targetDir h1 h2
  constructor
  · simp [mainConvert, hm]
  · by_cases hp : pathExists fs0 targetDir = true
    · simp [webpConvert, resolvePaths, hp, h1]
    · simp only [Bool.not_eq_true] at hp
      simp [webpConvert, resolvePaths, hp, hm]

/-- Witness for C8 (amended): over `fsA` with the file source `d/x.webp`. -/
theorem c8_batch_fallthrough_witness :
    mainConvert codecA fsA [] "d/x.webp" "t" true
      = mainConvert codecA fsA [] "d/x.webp" "t" false
    ∧ webpConvert codecA fsA [] (some "d/x.webp") (some "t") true
      = webpConvert codecA fsA [] (some "d/x.webp") (some "t") false :=
  c8_batch_fallthrough codecA fsA [] "d/x.webp" "t" (by decide) (by decide)

/-- C10: both scripts strip surrounding whitespace and lowercase the
operator response before comparing it with the replace token, so the
replace decision is case- and whitespace-insensitive, and any response
whose normalization differs from the token (`r` in `src/main.py`, `y` in
`src/webp-to-png.py`) is treated as skip. -/
theorem c10_replace_token_normalization :
    (∀ (s : String) (pre post : List Char),
        (∀ ch ∈ pre, isPySpace ch = true) → (∀ ch ∈ post, isPySpace ch = true) →
        pyNormalize ⟨pre ++ s.data ++ post⟩ = pyNormalize s)
    ∧ pyNormalize "R" = "r" ∧ pyNormalize "  r " = "r" ∧ pyNormalize "Y" = "y"
    ∧ (∀ (codec : Codec) (st : RunState) (sourceFile targetDir : String),
        ends (basename sourceFile) ".webp" = true →
        pathExists st.fs (osPathJoin targetDir
          (pyReplace (basename sourceFile) ".webp" ".png")) = true →
        (mainProcessFile codec st sourceFile targetDir).skipped
          = st.skipped + (if pyNormalize (st.inputs.headD "") = "r" then 0 else 1))
    ∧ (∀ (codec : Codec) (st : RunState) (sourceFile targetDir : String),
        pathSuffix sourceFile = ".webp" →
        pathExists st.fs (osPathJoin targetDir (withSuffixName sourceFile ".png")) = true →
        (webpProcessFile codec st sourceFile targetDir).skipped
          = st.skipped + (if pyNormalize (st.inputs.headD "") = "y" then 0 else 1)) := by
  refine ⟨?_, by decide, by decide, by decide, ?_, ?_⟩
  · intro s pre post hpre hpost
    have h1 : pyStrip ⟨pre ++ s.data ++ post⟩ = pyStrip ⟨s.data ++ post⟩ := by
      rw [List.append_assoc]
      exact pyStrip_pre pre (s.data ++ post) hpre
    have h2 : pyStrip ⟨s.data ++ post⟩ = pyStrip s := pyStrip_post s.data post hpost
    simp only [pyNormalize, h1, h2]
  · intro codec st sourceFile targetDir h1 h2
    simp only [mainProcessFile, h1, if_true, readLine]
    rw [if_pos h2]
    by_cases hr : pyNormalize (st.inputs.headD "") = "r"
    · rw [if_neg (by simpa using hr)]
      rw [mainAttempt_skipped]
      simp only [List.headD_eq_head?_getD] at hr
      simp [hr]
    · rw [if_pos hr]
      simp only [List.headD_eq_head?_getD] at hr
      simp [hr]
  · intro codec st sourceFile targetDir h1 h2
    simp only [webpProcessFile, readLine]
    rw [if_pos h1, if_pos h2]
    by_cases hr : pyNormalize (st.inputs.headD "") = "y"
    · rw [if_neg (by simpa using hr)]
      rw [webpAttempt_skipped]
      simp only [List.headD_eq_head?_getD] at hr
      simp [hr]
    · rw [if_pos hr]
      simp only [List.headD_eq_head?_getD] at hr
      simp [hr]

/-- Witness for C10 on the whitespace-padded response and the concrete
collision state `stC`. -/
theorem c10_replace_token_normalization_witness :
    pyNormalize ⟨" ".data ++ "r".data ++ "  ".data⟩ = pyNormalize "r"
    ∧ (mainProcessFile codecA stC "d/x.webp" "t").skipped
      = stC.skipped + (if pyNormalize (stC.inputs.headD "") = "r" then 0 else 1)
    ∧ (webpProcessFile codecA stC "d/x.webp" "t").skipped
      = stC.skipped + (if pyNormalize (stC.inputs.headD "") = "y" then 0 else 1) :=
  ⟨c10_replace_token_normalization.1 "r" " ".data "  ".data (by decide) (by decide),
   c10_replace_token_normalization.2.2.2.2.1 codecA stC "d/x.webp" "t"
     (by decide) (by decide),
   c10_replace_token_normalization.2.2.2.2.2 codecA stC "d/x.webp" "t"
     (by decide) (by decide)⟩

/-! ## Counter bookkeeping lemmas -/

lemma mkdirs_of_isDir (fs : FS) (t : String) (h : isDir fs t = true) :
    mkdirs fs t = fs := by
  simp [mkdirs, h]

lemma mainProcessFile_id (codec : Codec) (st : RunState)
    (sourceFile targetDir : String)
    (h : ends (basename sourceFile) ".webp" = false) :
    mainProcessFile codec st sourceFile targetDir = st := by
  simp [mainProcessFile, h]

lemma webpProcessFile_id (codec : Codec) (st : RunState)
    (sourceFile targetDir : String)
    (h : ¬ pathSuffix sourceFile = ".webp") :
    webpProcessFile codec st sourceFile targetDir = st := by
  simp [webpProcessFile, h]

lemma mainProcessFile_one (codec : Codec) (st : RunState)
    (sourceFile targetDir : String)
    (h : ends (basename sourceFile) ".webp" = true) :
    (let r := mainProcessFile codec st sourceFile targetDir
     (r.successful = st.successful + 1 ∧ r.failed = st.failed ∧ r.skipped = st.skipped)
     ∨ (r.successful = st.successful ∧ r.failed = st.failed + 1 ∧ r.skipped = st.skipped)
     ∨ (r.successful = st.successful ∧ r.failed = st.failed ∧ r.skipped = st.skipped + 1)) := by
  simp only [mainProcessFile, h, if_true, readLine]
  by_cases hex : pathExists st.fs (osPathJoin targetDir
      (pyReplace (basename sourceFile) ".webp" ".png")) = true
  · rw [if_pos hex]
    by_cases hn : pyNormalize (st.inputs.headD "") ≠ "r"
    · rw [if_pos hn]
      right; right
      exact ⟨rfl, rfl, rfl⟩
    · rw [if_neg hn]
      cases hdec : openAndDecode codec st.fs mainCompressLevel sourceFile with
      | ok png =>
        left
        simp [mainAttempt, hdec]
      | error e =>
        right; left
        simp [mainAttempt, hdec]
  · rw [if_neg hex]
    cases hdec : openAndDecode codec st.fs mainCompressLevel sourceFile with
    | ok png =>
      left
      simp [mainAttempt, hdec]
    | error e =>
      right; left
      simp [mainAttempt, hdec]

lemma webpProcessFile_one (codec : Codec) (st : RunState)
    (sourceFile targetDir : String)
    (h : pathSuffix sourceFile = ".webp") :
    (let r := webpProcessFile codec st sourceFile targetDir
     (r.successful = st.successful + 1 ∧ r.failed = st.failed ∧ r.skipped = st.skipped)
     ∨ (r.successful = st.successful ∧ r.failed = st.failed + 1 ∧ r.skipped = st.skipped)
     ∨ (r.successful = st.successful ∧ r.failed = st.failed ∧ r.skipped = st.skipped + 1)) := by
  simp only [webpProcessFile, readLine]
  rw [if_pos h]
  by_cases hex : pathExists st.fs
      (osPathJoin targetDir (withSuffixName sourceFile ".png")) = true
  · rw [if_pos hex]
    by_cases hn : pyNormalize (st.inputs.headD "") ≠ "y"
    · rw [if_pos hn]
      right; right
      exact ⟨rfl, rfl, rfl⟩
    · rw [if_neg hn]
      cases hdec : openAndDecode codec st.fs webpCompressLevel sourceFile with
      | ok png =>
        left
        simp [webpAttempt, hdec]
      | error e =>
        right; left
        by_cases hio : e.ioErr = true <;> simp [webpAttempt, hdec, hio]
  · rw [if_neg hex]
    cases hdec : openAndDecode codec st.fs webpCompressLevel sourceFile with
    | ok png =>
      left
      simp [webpAttempt, hdec]
    | error e =>
      right; left
      by_cases hio : e.ioErr = true <;> simp [webpAttempt, hdec, hio]

lemma mainProcessFile_sumCt (codec : Codec) (st : RunState)
    (sourceFile targetDir : String) :
    sumCt (mainProcessFile codec st sourceFile targetDir)
      = sumCt st + (if ends (basename sourceFile) ".webp" = true then 1 else 0) := by
  by_cases h : ends (basename sourceFile) ".webp" = true
  · rw [if_pos h]
    have := mainProcessFile_one codec st sourceFile targetDir h
    simp only at this
    unfold sumCt
    rcases this with ⟨a, b, c⟩ | ⟨a, b, c⟩ | ⟨a, b, c⟩ <;> rw [a, b, c] <;> omega
  · rw [if_neg h]
    rw [mainProcessFile_id codec st sourceFile targetDir (by simpa using h)]
    omega

lemma webpProcessFile_sumCt (codec : Codec) (st : RunState)
    (sourceFile targetDir : String) :
    sumCt (webpProcessFile codec st sourceFile targetDir)
      = sumCt st + (if pathSuffix sourceFile = ".webp" then 1 else 0) := by
  by_cases h : pathSuffix sourceFile = ".webp"
  · rw [if_pos h]
    have := webpProcessFile_one codec st sourceFile targetDir h
    simp only at this
    unfold sumCt
    rcases this with ⟨a, b, c⟩ | ⟨a, b, c⟩ | ⟨a, b, c⟩ <;> rw [a, b, c] <;> omega
  · rw [if_neg h]
    rw [webpProcessFile_id codec st sourceFile targetDir h]
    omega

lemma mainFold_sumCt (codec : Codec) (source targetDir : String) :
    ∀ (names : List String) (st : RunState),
    (∀ n ∈ names, basename (osPathJoin source n) = n) →
    sumCt (names.foldl
        (fun st n => mainProcessFile codec st (osPathJoin source n) targetDir) st)
      = sumCt st + (webpEntries names).length := by
  intro names
  induction names with
  | nil =>
    intro st _
    simp [webpEntries]
  | cons n rest ih =>
    intro st hbase
    rw [List.foldl_cons]
    rw [ih _ (fun m hm => hbase m (by simp [hm]))]
    rw [mainProcessFile_sumCt, hbase n (by simp)]
    simp only [webpEntries, List.filter_cons]
    by_cases h : ends n ".webp" = true
    · simp only [h, if_true, List.length_cons]
      omega
    · rw [if_neg h, if_neg h]
      omega

lemma webpFold_sumCt (codec : Codec) (source targetDir : String) :
    ∀ (cands : List String) (st : RunState),
    (∀ n ∈ cands, basename (osPathJoin source n) = n) →
    sumCt (cands.foldl
        (fun st n => webpProcessFile codec st (osPathJoin source n) targetDir) st)
      = sumCt st + (cands.filter (fun n => nameSuffix n = ".webp")).length := by
  intro cands
  induction cands with
  | nil =>
    intro st _
    simp
  | cons n rest ih =>
    intro st hbase
    rw [List.foldl_cons]
    rw [ih _ (fun m hm => hbase m (by simp [hm]))]
    rw [webpProcessFile_sumCt]
    have hps : pathSuffix (osPathJoin source n) = nameSuffix n := by
      simp only [pathSuffix, hbase n (by simp)]
    rw [hps]
    simp only [List.filter_cons]
    by_cases h : nameSuffix n = ".webp"
    · rw [if_pos h, if_pos (by simpa using h), List.length_cons]
      omega
    · rw [if_neg h, if_neg (by simpa using h)]
      omega

end WebpToPng

namespace WebpToPng

lemma pathExists_of_isDir (fs : FS) (p : String) (h : isDir fs p = true) :
    pathExists fs p = true := by
  simp [pathExists, h]

/-- C6 counterexample: over a directory whose listing is
`[".webp", "ok.webp"]` (both existing files, both ending in `.webp`, hence
both glob candidates), a batch run of `src/webp-to-png.py` processes two
candidates but ends with counters summing to 1: the candidate named exactly
`.webp` has empty pathlib suffix and changes no counter. -/
theorem c6_counterexample :
    (webpEntries (fsB.listing "d")).length = 2
    ∧ sumCt (webpConvert codecA fsB [] (some "d") (some "t") true) = 1 := by
  refine ⟨by decide, by decide⟩

/-- C6 (amended): processing a candidate that passes the per-script name
check increments exactly one of the three counters by exactly one; at the
end of a batch run the counters sum to the number of such candidates.  In
`src/main.py` every `.webp`-suffixed entry passes the check; in
`src/webp-to-png.py` a glob candidate named exactly `.webp` fails the
`suffix == '.webp'` check and changes no counter. -/
theorem c6_counter_invariant :
    (∀ (codec : Codec) (st : RunState) (sourceFile targetDir : String),
        ends (basename sourceFile) ".webp" = true →
        (let r := mainProcessFile codec st sourceFile targetDir
         (r.successful = st.successful + 1 ∧ r.failed = st.failed ∧ r.skipped = st.skipped)
         ∨ (r.successful = st.successful ∧ r.failed = st.failed + 1 ∧ r.skipped = st.skipped)
         ∨ (r.successful = st.successful ∧ r.failed = st.failed ∧ r.skipped = st.skipped + 1)))
    ∧ (∀ (codec : Codec) (st : RunState) (sourceFile targetDir : String),
        pathSuffix sourceFile = ".webp" →
        (let r := webpProcessFile codec st sourceFile targetDir
         (r.successful = st.successful + 1 ∧ r.failed = st.failed ∧ r.skipped = st.skipped)
         ∨ (r.successful = st.successful ∧ r.failed = st.failed + 1 ∧ r.skipped = st.skipped)
         ∨ (r.successful = st.successful ∧ r.failed = st.failed ∧ r.skipped = st.skipped + 1)))
    ∧ (∀ (codec : Codec) (fs0 : FS) (inputs : List String) (source targetDir : String),
        isDir fs0 targetDir = true → isDir fs0 source = true →
        (∀ n ∈ fs0.listing source, basename (osPathJoin source n) = n) →
        sumCt (mainConvert codec fs0 inputs source targetDir true)
          = (webpEntries (fs0.listing source)).length)
    ∧ (∀ (codec : Codec) (fs0 : FS) (inputs : List String) (source targetDir : String),
        isDir fs0 targetDir = true → isDir fs0 source = true →
        (∀ n ∈ fs0.listing source, basename (osPathJoin source n) = n) →
        sumCt (webpConvert codec fs0 inputs (some source) (some targetDir) true)
          = ((webpEntries (fs0.listing source)).filter
              (fun n => nameSuffix n = ".webp")).length) := by
  refine ⟨mainProcessFile_one, webpProcessFile_one, ?_, ?_⟩
  · intro codec fs0 inputs source targetDir htd hdir hbase
    simp only [mainConvert, mkdirs_of_isDir fs0 targetDir htd, hdir, Bool.and_self,
      if_true]
    have := mainFold_sumCt codec source targetDir (fs0.listing source)
      ⟨fs0, inputs, 0, 0, 0, [], [], []⟩ hbase
    simpa [sumCt] using this
  · intro codec fs0 inputs source targetDir htd hdir hbase
    simp only [webpConvert, resolvePaths, pathExists_of_isDir fs0 targetDir htd,
      if_true, hdir, Bool.and_self]
    have := webpFold_sumCt codec source targetDir
      ((fs0.listing source).filter (fun n => ends n ".webp"))
      ⟨fs0, inputs, 0, 0, 0, [], [], []⟩
      (fun n hn => hbase n (List.mem_of_mem_filter hn))
    simpa [sumCt, webpEntries] using this

/-- Witness for C6 on `fsB`: the main script counts both candidates, the
webp script counts one. -/
theorem c6_counter_invariant_witness :
    sumCt (mainConvert codecA fsB [] "d" "t" true)
      = (webpEntries (fsB.listing "d")).length
    ∧ sumCt (webpConvert codecA fsB [] (some "d") (some "t") true)
      = ((webpEntries (fsB.listing "d")).filter
          (fun n => nameSuffix n = ".webp")).length :=
  ⟨c6_counter_invariant.2.2.1 codecA fsB [] "d" "t" (by decide) (by decide)
      (by decide),
   c6_counter_invariant.2.2.2 codecA fsB [] "d" "t" (by decide) (by decide)
      (by decide)⟩

/-! ## Write and attempt step lemmas -/

@[simp] lemma writeFile_dirs (fs : FS) (p v : String) :
    (writeFile fs p v).dirs = fs.dirs := rfl

@[simp] lemma writeFile_listing (fs : FS) (p v : String) :
    (writeFile fs p v).listing = fs.listing := rfl

lemma lookupFile_write_ne (fs : FS) (p v q : String) (h : p ≠ q) :
    lookupFile (writeFile fs p v) q = lookupFile fs q := by
  simp only [lookupFile, writeFile, List.find?_cons]
  have : (decide (p = q)) = false := by simp [h]
  simp [this]

lemma pathExists_write_ne (fs : FS) (p v q : String) (h : p ≠ q) :
    pathExists (writeFile fs p v) q = pathExists fs q := by
  simp only [pathExists, isFile, isDir, lookupFile_write_ne fs p v q h, writeFile_dirs]

lemma mainProcessFile_attempt (codec : Codec) (st : RunState)
    (sourceFile targetDir : String)
    (hew : ends (basename sourceFile) ".webp" = true)
    (hfresh : pathExists st.fs
      (osPathJoin targetDir (pyReplace (basename sourceFile) ".webp" ".png")) = false) :
    mainProcessFile codec st sourceFile targetDir
      = mainAttempt codec st sourceFile
          (osPathJoin targetDir (pyReplace (basename sourceFile) ".webp" ".png"))
          (basename sourceFile) := by
  simp only [mainProcessFile, hew, if_true]
  rw [if_neg (by simp [hfresh])]

lemma mainAttempt_ok (codec : Codec) (st : RunState)
    (sourceFile targetFile filename png : String)
    (h : openAndDecode codec st.fs mainCompressLevel sourceFile = Except.ok png) :
    mainAttempt codec st sourceFile targetFile filename
      = { st with
          fs := writeFile st.fs targetFile png
          successful := st.successful + 1
          log := st.log ++ ["Successfully converted " ++ filename ++ " to .png."] } := by
  simp [mainAttempt, h]

lemma mainAttempt_err (codec : Codec) (st : RunState)
    (sourceFile targetFile filename : String) (e : CodecErr)
    (h : openAndDecode codec st.fs mainCompressLevel sourceFile = Except.error e) :
    mainAttempt codec st sourceFile targetFile filename
      = { st with
          failed := st.failed + 1
          log := st.log ++ ["Failed to convert " ++ filename ++ ". Error: " ++ e.msg] } := by
  simp [mainAttempt, h]

lemma webpProcessFile_attempt (codec : Codec) (st : RunState)
    (sourceFile targetDir : String)
    (hsuf : pathSuffix sourceFile = ".webp")
    (hfresh : pathExists st.fs
      (osPathJoin targetDir (withSuffixName sourceFile ".png")) = false) :
    webpProcessFile codec st sourceFile targetDir
      = webpAttempt codec st sourceFile
          (osPathJoin targetDir (withSuffixName sourceFile ".png")) := by
  simp only [webpProcessFile]
  rw [if_pos hsuf, if_neg (by simp [hfresh])]

lemma webpAttempt_ok (codec : Codec) (st : RunState)
    (sourceFile targetFile png : String)
    (h : openAndDecode codec st.fs webpCompressLevel sourceFile = Except.ok png) :
    webpAttempt codec st sourceFile targetFile
      = { st with
          fs := writeFile st.fs targetFile png
          successful := st.successful + 1
          out := st.out ++ ["Converted: " ++ basename sourceFile] } := by
  simp [webpAttempt, h]

lemma webpAttempt_err (codec : Codec) (st : RunState)
    (sourceFile targetFile : String) (e : CodecErr)
    (h : openAndDecode codec st.fs webpCompressLevel sourceFile = Except.error e) :
    webpAttempt codec st sourceFile targetFile
      = { st with
          failed := st.failed + 1
          log := st.log ++
            (if e.ioErr then ["IOError for " ++ basename sourceFile ++ ": " ++ e.msg]
             else ["Unexpected error for " ++ basename sourceFile ++ ": " ++ e.msg]) } := by
  by_cases hio : e.ioErr = true <;> simp [webpAttempt, h, hio]

end WebpToPng

namespace WebpToPng

/-- Full characterization of a `src/main.py` batch-fold over a directory
listing: under a well-formed listing, a content oracle `c`, collision-free
and non-aliasing destinations, the fold attempts exactly the `.webp`-named
entries, writing the successful ones and logging one line per candidate. -/
lemma mainFold_run (codec : Codec) (c : String → String) (source targetDir : String) :
    ∀ (names : List String) (st : RunState),
    (∀ n ∈ names, basename (osPathJoin source n) = n) →
    (∀ n ∈ webpEntries names, lookupFile st.fs (osPathJoin source n) = some (c n)) →
    (∀ n ∈ webpEntries names, pathExists st.fs (mainDestPath targetDir n) = false) →
    ((webpEntries names).Pairwise
      (fun a b => mainDestPath targetDir a ≠ mainDestPath targetDir b)) →
    (∀ n ∈ webpEntries names, ∀ m ∈ webpEntries names,
      mainDestPath targetDir m ≠ osPathJoin source n) →
    (let res := names.foldl
        (fun st n => mainProcessFile codec st (osPathJoin source n) targetDir) st
     res.successful = st.successful + mainOkCount codec c (webpEntries names)
     ∧ res.failed = st.failed + mainErrCount codec c (webpEntries names)
     ∧ res.skipped = st.skipped
     ∧ res.inputs = st.inputs
     ∧ res.out = st.out
     ∧ res.err = st.err
     ∧ res.log = st.log ++ (webpEntries names).map (mainLogLine codec c)
     ∧ res.fs.files = mainOkWrites codec c targetDir (webpEntries names) ++ st.fs.files
     ∧ res.fs.dirs = st.fs.dirs
     ∧ res.fs.listing = st.fs.listing) := by
  intro names
  induction names with
  | nil =>
    intro st _ _ _ _ _
    simp [webpEntries, mainOkWrites, mainOkCount, mainErrCount]
  | cons n rest ih =>
    intro st hbase hlook hfresh hnodup hsep
    simp only [List.foldl_cons]
    by_cases hew : ends n ".webp" = true
    · -- candidate entry: one conversion attempt, then the rest
      have hwe : webpEntries (n :: rest) = n :: webpEntries rest := by
        simp [webpEntries, List.filter_cons, hew]
      rw [hwe] at hlook hfresh hnodup hsep ⊢
      have hmemn : n ∈ n :: webpEntries rest := by simp
      obtain ⟨hhead, htail⟩ := List.pairwise_cons.mp hnodup
      have hstep : mainProcessFile codec st (osPathJoin source n) targetDir
          = mainAttempt codec st (osPathJoin source n) (mainDestPath targetDir n) n := by
        have h := mainProcessFile_attempt codec st (osPathJoin source n) targetDir
          (by rw [hbase n (by simp)]; exact hew)
          (by rw [hbase n (by simp)]; exact hfresh n hmemn)
        rw [h, hbase n (by simp)]
        rfl
      have hod0 : openAndDecode codec st.fs mainCompressLevel (osPathJoin source n)
          = mainOutcome codec c n := by
        simp only [openAndDecode, hlook n hmemn]
        rfl
      cases hout : mainOutcome codec c n with
      | ok png =>
        have hod : openAndDecode codec st.fs mainCompressLevel (osPathJoin source n)
            = Except.ok png := by rw [hod0, hout]
        rw [hstep, mainAttempt_ok codec st _ _ _ png hod]
        have hstfs : ({ st with
            fs := writeFile st.fs (mainDestPath targetDir n) png
            successful := st.successful + 1
            log := st.log ++ ["Successfully converted " ++ n ++ " to .png."] } :
            RunState).fs = writeFile st.fs (mainDestPath targetDir n) png := rfl
        obtain ⟨i1, i2, i3, i4, i5, i6, i7, i8, i9, i10⟩ := ih
          { st with
            fs := writeFile st.fs (mainDestPath targetDir n) png
            successful := st.successful + 1
            log := st.log ++ ["Successfully converted " ++ n ++ " to .png."] }
          (fun m hm => hbase m (by simp [hm]))
          (fun m hm => by
            rw [hstfs, lookupFile_write_ne st.fs _ png _
              (hsep m (by simp [hm]) n hmemn)]
            exact hlook m (by simp [hm]))
          (fun m hm => by
            rw [hstfs, pathExists_write_ne st.fs _ png _ (hhead m hm)]
            exact hfresh m (by simp [hm]))
          htail
          (fun a ha b hb => hsep a (by simp [ha]) b (by simp [hb]))
        refine ⟨?_, ?_, ?_, ?_, ?_, ?_, ?_, ?_, ?_, ?_⟩
        · rw [i1]
          simp only [mainOkCount, List.filter_cons, hout, exceptOk, if_true,
            List.length_cons]
          omega
        · rw [i2]
          simp [mainErrCount, List.filter_cons, hout, exceptOk]
        · rw [i3]
        · rw [i4]
        · rw [i5]
        · rw [i6]
        · rw [i7]
          simp only [List.map_cons, mainLogLine, hout, List.append_assoc,
            List.singleton_append]
        · rw [i8, hstfs]
          simp only [writeFile, mainOkWrites, List.filter_cons, hout, exceptOk,
            if_true, List.reverse_cons, List.map_append, List.map_cons,
            List.map_nil, List.append_assoc, List.singleton_append, okVal]
        · rw [i9, hstfs, writeFile_dirs]
        · rw [i10, hstfs, writeFile_listing]
      | error e =>
        have hod : openAndDecode codec st.fs mainCompressLevel (osPathJoin source n)
            = Except.error e := by rw [hod0, hout]
        rw [hstep, mainAttempt_err codec st _ _ _ e hod]
        obtain ⟨i1, i2, i3, i4, i5, i6, i7, i8, i9, i10⟩ := ih
          { st with
            failed := st.failed + 1
            log := st.log ++ ["Failed to convert " ++ n ++ ". Error: " ++ e.msg] }
          (fun m hm => hbase m (by simp [hm]))
          (fun m hm => hlook m (by simp [hm]))
          (fun m hm => hfresh m (by simp [hm]))
          htail
          (fun a ha b hb => hsep a (by simp [ha]) b (by simp [hb]))
        refine ⟨?_, ?_, ?_, ?_, ?_, ?_, ?_, ?_, ?_, ?_⟩
        · rw [i1]
          simp [mainOkCount, List.filter_cons, hout, exceptOk]
        · rw [i2]
          simp only [mainErrCount, List.filter_cons, hout, exceptOk, Bool.not_false,
            if_true, List.length_cons, decide_True]
          omega
        · rw [i3]
        · rw [i4]
        · rw [i5]
        · rw [i6]
        · rw [i7]
          simp only [List.map_cons, mainLogLine, hout, List.append_assoc,
            List.singleton_append]
        · rw [i8]
          simp [mainOkWrites, List.filter_cons, hout, exceptOk]
        · rw [i9]
        · rw [i10]
    · -- non-candidate entry: the step is the identity
      have hid : mainProcessFile codec st (osPathJoin source n) targetDir = st :=
        mainProcessFile_id _ _ _ _ (by rw [hbase n (by simp)]; simpa using hew)
      rw [hid]
      have hwe : webpEntries (n :: rest) = webpEntries rest := by
        simp [webpEntries, List.filter_cons, hew]
      rw [hwe] at hlook hfresh hnodup hsep ⊢
      exact ih st (fun m hm => hbase m (by simp [hm])) hlook hfresh hnodup hsep

end WebpToPng

namespace WebpToPng

/-- Full characterization of a `src/webp-to-png.py` batch-fold over the
glob candidates: every candidate with pathlib suffix `.webp` is attempted;
successes are written and printed, failures are logged. -/
lemma webpFold_run (codec : Codec) (c : String → String) (source targetDir : String) :
    ∀ (cands : List String) (st : RunState),
    (∀ n ∈ cands, basename (osPathJoin source n) = n) →
    (∀ n ∈ cands, nameSuffix n = ".webp") →
    (∀ n ∈ cands, lookupFile st.fs (osPathJoin source n) = some (c n)) →
    (∀ n ∈ cands, pathExists st.fs (webpDestPath targetDir n) = false) →
    (cands.Pairwise (fun a b => webpDestPath targetDir a ≠ webpDestPath targetDir b)) →
    (∀ n ∈ cands, ∀ m ∈ cands, webpDestPath targetDir m ≠ osPathJoin source n) →
    (let res := cands.foldl
        (fun st n => webpProcessFile codec st (osPathJoin source n) targetDir) st
     res.successful = st.successful + webpOkCount codec c cands
     ∧ res.failed = st.failed + webpErrCount codec c cands
     ∧ res.skipped = st.skipped
     ∧ res.inputs = st.inputs
     ∧ res.out = st.out ++ (cands.filter (fun n => exceptOk (webpOutcome codec c n))).map
          (fun n => "Converted: " ++ n)
     ∧ res.err = st.err
     ∧ res.log = st.log ++ cands.flatMap (webpLogLines codec c)
     ∧ res.fs.files = webpOkWrites codec c targetDir cands ++ st.fs.files
     ∧ res.fs.dirs = st.fs.dirs
     ∧ res.fs.listing = st.fs.listing) := by
  intro cands
  induction cands with
  | nil =>
    intro st _ _ _ _ _ _
    simp [webpOkWrites, webpOkCount, webpErrCount]
  | cons n rest ih =>
    intro st hbase hsuf hlook hfresh hnodup hsep
    simp only [List.foldl_cons]
    have hmemn : n ∈ n :: rest := by simp
    obtain ⟨hhead, htail⟩ := List.pairwise_cons.mp hnodup
    have hstep : webpProcessFile codec st (osPathJoin source n) targetDir
        = webpAttempt codec st (osPathJoin source n) (webpDestPath targetDir n) := by
      have h := webpProcessFile_attempt codec st (osPathJoin source n) targetDir
        (by simp only [pathSuffix, hbase n hmemn]; exact hsuf n hmemn)
        (by simp only [withSuffixName, hbase n hmemn]; exact hfresh n hmemn)
      rw [h]
      simp only [withSuffixName, hbase n hmemn]
      rfl
    cases hout : webpOutcome codec c n with
    | ok png =>
      have hod : openAndDecode codec st.fs webpCompressLevel (osPathJoin source n)
          = Except.ok png := by
        simp only [openAndDecode, hlook n hmemn]
        exact hout
      rw [hstep, webpAttempt_ok codec st _ _ png hod]
      have hbn : basename (osPathJoin source n) = n := hbase n hmemn
      rw [hbn]
      have hstfs : ({ st with
          fs := writeFile st.fs (webpDestPath targetDir n) png
          successful := st.successful + 1
          out := st.out ++ ["Converted: " ++ n] } : RunState).fs
          = writeFile st.fs (webpDestPath targetDir n) png := rfl
      obtain ⟨i1, i2, i3, i4, i5, i6, i7, i8, i9, i10⟩ := ih
        { st with
          fs := writeFile st.fs (webpDestPath targetDir n) png
          successful := st.successful + 1
          out := st.out ++ ["Converted: " ++ n] }
        (fun m hm => hbase m (by simp [hm]))
        (fun m hm => hsuf m (by simp [hm]))
        (fun m hm => by
          rw [hstfs, lookupFile_write_ne st.fs _ png _
            (hsep m (by simp [hm]) n hmemn)]
          exact hlook m (by simp [hm]))
        (fun m hm => by
          rw [hstfs, pathExists_write_ne st.fs _ png _ (hhead m hm)]
          exact hfresh m (by simp [hm]))
        htail
        (fun a ha b hb => hsep a (by simp [ha]) b (by simp [hb]))
      refine ⟨?_, ?_, ?_, ?_, ?_, ?_, ?_, ?_, ?_, ?_⟩
      · rw [i1]
        simp only [webpOkCount, List.filter_cons, hout, exceptOk, if_true,
          List.length_cons]
        omega
      · rw [i2]
        simp [webpErrCount, List.filter_cons, hout, exceptOk]
      · rw [i3]
      · rw [i4]
      · rw [i5]
        simp only [List.filter_cons, hout, exceptOk, if_true, List.map_cons,
          List.append_assoc, List.singleton_append]
      · rw [i6]
      · rw [i7]
        simp only [List.flatMap_cons, webpLogLines, hout, List.nil_append,
          List.append_assoc]
      · rw [i8, hstfs]
        simp only [writeFile, webpOkWrites, List.filter_cons, hout, exceptOk,
          if_true, List.reverse_cons, List.map_append, List.map_cons,
          List.map_nil, List.append_assoc, List.singleton_append, okVal]
      · rw [i9, hstfs, writeFile_dirs]
      · rw [i10, hstfs, writeFile_listing]
    | error e =>
      have hod : openAndDecode codec st.fs webpCompressLevel (osPathJoin source n)
          = Except.error e := by
        simp only [openAndDecode, hlook n hmemn]
        exact hout
      rw [hstep, webpAttempt_err codec st _ _ e hod]
      have hbn : basename (osPathJoin source n) = n := hbase n hmemn
      rw [hbn]
      obtain ⟨i1, i2, i3, i4, i5, i6, i7, i8, i9, i10⟩ := ih
        { st with
          failed := st.failed + 1
          log := st.log ++
            (if e.ioErr then ["IOError for " ++ n ++ ": " ++ e.msg]
             else ["Unexpected error for " ++ n ++ ": " ++ e.msg]) }
        (fun m hm => hbase m (by simp [hm]))
        (fun m hm => hsuf m (by simp [hm]))
        (fun m hm => hlook m (by simp [hm]))
        (fun m hm => hfresh m (by simp [hm]))
        htail
        (fun a ha b hb => hsep a (by simp [ha]) b (by simp [hb]))
      refine ⟨?_, ?_, ?_, ?_, ?_, ?_, ?_, ?_, ?_, ?_⟩
      · rw [i1]
        simp [webpOkCount, List.filter_cons, hout, exceptOk]
      · rw [i2]
        simp only [webpErrCount, List.filter_cons, hout, exceptOk, Bool.not_false,
          if_true, List.length_cons, decide_True]
        omega
      · rw [i3]
      · rw [i4]
      · rw [i5]
        simp [List.filter_cons, hout, exceptOk]
      · rw [i6]
      · rw [i7]
        simp only [List.flatMap_cons, webpLogLines, hout, List.append_assoc]
      · rw [i8]
        simp [webpOkWrites, List.filter_cons, hout, exceptOk]
      · rw [i9]
      · rw [i10]

lemma mainConvert_batch (codec : Codec) (fs0 : FS) (inputs : List String)
    (source targetDir : String)
    (htd : isDir fs0 targetDir = true) (hdir : isDir fs0 source = true) :
    mainConvert codec fs0 inputs source targetDir true
      = (let st1 := (fs0.listing source).foldl
            (fun st n => mainProcessFile codec st (osPathJoin source n) targetDir)
            ⟨fs0, inputs, 0, 0, 0, [], [], []⟩
         { st1 with
           log := st1.log ++ [mainSummary st1.successful st1.failed st1.skipped] }) := by
  simp only [mainConvert, mkdirs_of_isDir fs0 targetDir htd, hdir, Bool.and_self,
    Bool.true_and, if_true]

lemma webpConvert_batch (codec : Codec) (fs0 : FS) (inputs : List String)
    (source targetDir : String)
    (htd : isDir fs0 targetDir = true) (hdir : isDir fs0 source = true) :
    webpConvert codec fs0 inputs (some source) (some targetDir) true
      = (let st1 := (webpEntries (fs0.listing source)).foldl
            (fun st n => webpProcessFile codec st (osPathJoin source n) targetDir)
            ⟨fs0, inputs, 0, 0, 0, [], [], []⟩
         { st1 with
           log := st1.log ++ [webpSummary st1.successful st1.failed st1.skipped] }) := by
  simp only [webpConvert, resolvePaths, webpEntries, pathExists_of_isDir fs0 targetDir htd,
    hdir, Bool.and_self, Bool.true_and, if_true]

end WebpToPng

namespace WebpToPng

/-- C2 counterexample: the directory `d` of `fsB` has two entries ending in
`.webp` (so N = 2), every decode succeeds and no collision occurs, yet the
batch run of `src/webp-to-png.py` produces one PNG output, not two: the
candidate named exactly `.webp` is dropped by the `suffix == '.webp'`
check. -/
theorem c2_counterexample :
    (webpEntries (fsB.listing "d")).length = 2
    ∧ (webpConvert codecA fsB [] (some "d") (some "t") true).successful = 1
    ∧ (webpConvert codecA fsB [] (some "d") (some "t") true).fs.files
      = [("t/ok.png", "PNG6V"), ("d/.webp", "W"), ("d/ok.webp", "V")] := by
  refine ⟨by decide, by decide, by decide⟩

/-- C2 (amended): in batch mode over an existing directory the candidates
are exactly the listing entries ending in `.webp` (case-sensitive,
non-recursive); assuming every decode succeeds, no destination collision,
and no candidate is named exactly `.webp`, both scripts produce exactly N
PNG outputs for the N candidates, the other entries cause no output and no
counter change, and the failed and skipped counters stay zero. -/
theorem c2_batch_enumeration (codec : Codec) (c : String → String) (fs0 : FS)
    (inputs : List String) (source targetDir : String)
    (htd : isDir fs0 targetDir = true)
    (hdir : isDir fs0 source = true)
    (hbase : ∀ n ∈ fs0.listing source, basename (osPathJoin source n) = n)
    (hno : ∀ n ∈ webpEntries (fs0.listing source), n ≠ ".webp")
    (hlook : ∀ n ∈ webpEntries (fs0.listing source),
      lookupFile fs0 (osPathJoin source n) = some (c n))
    (hok : ∀ n ∈ webpEntries (fs0.listing source),
      exceptOk (mainOutcome codec c n) = true ∧ exceptOk (webpOutcome codec c n) = true)
    (hfreshm : ∀ n ∈ webpEntries (fs0.listing source),
      pathExists fs0 (mainDestPath targetDir n) = false)
    (hnodupm : (webpEntries (fs0.listing source)).Pairwise
      (fun a b => mainDestPath targetDir a ≠ mainDestPath targetDir b))
    (hsepm : ∀ n ∈ webpEntries (fs0.listing source),
      ∀ m ∈ webpEntries (fs0.listing source),
      mainDestPath targetDir m ≠ osPathJoin source n)
    (hfreshw : ∀ n ∈ webpEntries (fs0.listing source),
      pathExists fs0 (webpDestPath targetDir n) = false)
    (hnodupw : (webpEntries (fs0.listing source)).Pairwise
      (fun a b => webpDestPath targetDir a ≠ webpDestPath targetDir b))
    (hsepw : ∀ n ∈ webpEntries (fs0.listing source),
      ∀ m ∈ webpEntries (fs0.listing source),
      webpDestPath targetDir m ≠ osPathJoin source n) :
    (mainConvert codec fs0 inputs source targetDir true).successful
      = (webpEntries (fs0.listing source)).length
    ∧ (mainConvert codec fs0 inputs source targetDir true).failed = 0
    ∧ (mainConvert codec fs0 inputs source targetDir true).skipped = 0
    ∧ (mainConvert codec fs0 inputs source targetDir true).fs.files
      = mainOkWrites codec c targetDir (webpEntries (fs0.listing source)) ++ fs0.files
    ∧ (mainOkWrites codec c targetDir (webpEntries (fs0.listing source))).length
      = (webpEntries (fs0.listing source)).length
    ∧ (webpConvert codec fs0 inputs (some source) (some targetDir) true).successful
      = (webpEntries (fs0.listing source)).length
    ∧ (webpConvert codec fs0 inputs (some source) (some targetDir) true).failed = 0
    ∧ (webpConvert codec fs0 inputs (some source) (some targetDir) true).skipped = 0
    ∧ (webpConvert codec fs0 inputs (some source) (some targetDir) true).fs.files
      = webpOkWrites codec c targetDir (webpEntries (fs0.listing source)) ++ fs0.files
    ∧ (webpOkWrites codec c targetDir (webpEntries (fs0.listing source))).length
      = (webpEntries (fs0.listing source)).length := by
  have hWends : ∀ n ∈ webpEntries (fs0.listing source), ends n ".webp" = true :=
    fun n hn => (List.mem_filter.mp hn).2
  have hsuf : ∀ n ∈ webpEntries (fs0.listing source), nameSuffix n = ".webp" :=
    fun n hn => nameSuffix_of_ends n (hWends n hn) (hno n hn)
  have hfilm : (webpEntries (fs0.listing source)).filter
      (fun n => exceptOk (mainOutcome codec c n)) = webpEntries (fs0.listing source) :=
    List.filter_eq_self.mpr (fun n hn => by simp [(hok n hn).1])
  have hfilw : (webpEntries (fs0.listing source)).filter
      (fun n => exceptOk (webpOutcome codec c n)) = webpEntries (fs0.listing source) :=
    List.filter_eq_self.mpr (fun n hn => by simp [(hok n hn).2])
  have hfilm0 : (webpEntries (fs0.listing source)).filter
      (fun n => !exceptOk (mainOutcome codec c n)) = [] :=
    List.filter_eq_nil_iff.mpr (fun n hn => by simp [(hok n hn).1])
  have hfilw0 : (webpEntries (fs0.listing source)).filter
      (fun n => !exceptOk (webpOutcome codec c n)) = [] :=
    List.filter_eq_nil_iff.mpr (fun n hn => by simp [(hok n hn).2])
  obtain ⟨m1, m2, m3, m4, m5, m6, m7, m8, m9, m10⟩ :=
    mainFold_run codec c source targetDir (fs0.listing source)
      ⟨fs0, inputs, 0, 0, 0, [], [], []⟩ hbase hlook hfreshm hnodupm hsepm
  obtain ⟨w1, w2, w3, w4, w5, w6, w7, w8, w9, w10⟩ :=
    webpFold_run codec c source targetDir (webpEntries (fs0.listing source))
      ⟨fs0, inputs, 0, 0, 0, [], [], []⟩
      (fun n hn => hbase n (List.mem_of_mem_filter hn)) hsuf hlook hfreshw
      hnodupw hsepw
  rw [mainConvert_batch codec fs0 inputs source targetDir htd hdir,
    webpConvert_batch codec fs0 inputs source targetDir htd hdir]
  dsimp only
  refine ⟨?_, ?_, ?_, ?_, ?_, ?_, ?_, ?_, ?_, ?_⟩
  · rw [m1]
    simp [mainOkCount, hfilm]
  · rw [m2]
    simp [mainErrCount, hfilm0]
  · rw [m3]
  · rw [m8]
  · simp [mainOkWrites, hfilm]
  · rw [w1]
    simp [webpOkCount, hfilw]
  · rw [w2]
    simp [webpErrCount, hfilw0]
  · rw [w3]
  · rw [w8]
  · simp [webpOkWrites, hfilw]

end WebpToPng

namespace WebpToPng

/-- Witness for C2 (amended) over the concrete directory `d` of `fsA`. -/
theorem c2_batch_enumeration_witness :
    (mainConvert codecA fsA [] "d" "t" true).successful
      = (webpEntries (fsA.listing "d")).length
    ∧ (mainConvert codecA fsA [] "d" "t" true).fs.files
      = mainOkWrites codecA (fun _ => "W") "t" (webpEntries (fsA.listing "d"))
        ++ fsA.files
    ∧ (webpConvert codecA fsA [] (some "d") (some "t") true).successful
      = (webpEntries (fsA.listing "d")).length := by
  have h := c2_batch_enumeration codecA (fun _ => "W") fsA [] "d" "t"
    (by decide) (by decide) (by decide) (by decide) (by decide) (by decide)
    (by decide) (by decide) (by decide) (by decide) (by decide) (by decide)
  exact ⟨h.1, h.2.2.2.1, h.2.2.2.2.2.1⟩

/-- C5: a candidate whose decode or encode fails increments the failed
counter, is logged with its file name and the underlying cause, does not
abort the run (all other candidates still contribute their outcomes and
outputs), and the final summary line is still logged. -/
theorem c5_error_containment (codec : Codec) (c : String → String) (fs0 : FS)
    (inputs : List String) (source targetDir bad : String) (e : CodecErr)
    (htd : isDir fs0 targetDir = true)
    (hdir : isDir fs0 source = true)
    (hbase : ∀ n ∈ fs0.listing source, basename (osPathJoin source n) = n)
    (hno : ∀ n ∈ webpEntries (fs0.listing source), n ≠ ".webp")
    (hlook : ∀ n ∈ webpEntries (fs0.listing source),
      lookupFile fs0 (osPathJoin source n) = some (c n))
    (hfreshm : ∀ n ∈ webpEntries (fs0.listing source),
      pathExists fs0 (mainDestPath targetDir n) = false)
    (hnodupm : (webpEntries (fs0.listing source)).Pairwise
      (fun a b => mainDestPath targetDir a ≠ mainDestPath targetDir b))
    (hsepm : ∀ n ∈ webpEntries (fs0.listing source),
      ∀ m ∈ webpEntries (fs0.listing source),
      mainDestPath targetDir m ≠ osPathJoin source n)
    (hfreshw : ∀ n ∈ webpEntries (fs0.listing source),
      pathExists fs0 (webpDestPath targetDir n) = false)
    (hnodupw : (webpEntries (fs0.listing source)).Pairwise
      (fun a b => webpDestPath targetDir a ≠ webpDestPath targetDir b))
    (hsepw : ∀ n ∈ webpEntries (fs0.listing source),
      ∀ m ∈ webpEntries (fs0.listing source),
      webpDestPath targetDir m ≠ osPathJoin source n)
    (hbad : bad ∈ webpEntries (fs0.listing source))
    (hbadm : mainOutcome codec c bad = Except.error e)
    (hbadw : webpOutcome codec c bad = Except.error e) :
    ("Failed to convert " ++ bad ++ ". Error: " ++ e.msg)
      ∈ (mainConvert codec fs0 inputs source targetDir true).log
    ∧ (mainConvert codec fs0 inputs source targetDir true).failed
      = mainErrCount codec c (webpEntries (fs0.listing source))
    ∧ 1 ≤ (mainConvert codec fs0 inputs source targetDir true).failed
    ∧ (mainConvert codec fs0 inputs source targetDir true).successful
      = mainOkCount codec c (webpEntries (fs0.listing source))
    ∧ (mainConvert codec fs0 inputs source targetDir true).fs.files
      = mainOkWrites codec c targetDir (webpEntries (fs0.listing source)) ++ fs0.files
    ∧ (mainConvert codec fs0 inputs source targetDir true).log.getLast?
      = some (mainSummary (mainConvert codec fs0 inputs source targetDir true).successful
          (mainConvert codec fs0 inputs source targetDir true).failed
          (mainConvert codec fs0 inputs source targetDir true).skipped)
    ∧ ((if e.ioErr then "IOError for " ++ bad ++ ": " ++ e.msg
        else "Unexpected error for " ++ bad ++ ": " ++ e.msg)
      ∈ (webpConvert codec fs0 inputs (some source) (some targetDir) true).log)
    ∧ (webpConvert codec fs0 inputs (some source) (some targetDir) true).failed
      = webpErrCount codec c (webpEntries (fs0.listing source))
    ∧ 1 ≤ (webpConvert codec fs0 inputs (some source) (some targetDir) true).failed
    ∧ (webpConvert codec fs0 inputs (some source) (some targetDir) true).successful
      = webpOkCount codec c (webpEntries (fs0.listing source))
    ∧ (webpConvert codec fs0 inputs (some source) (some targetDir) true).fs.files
      = webpOkWrites codec c targetDir (webpEntries (fs0.listing source)) ++ fs0.files
    ∧ (webpConvert codec fs0 inputs (some source) (some targetDir) true).log.getLast?
      = some (webpSummary
          (webpConvert codec fs0 inputs (some source) (some targetDir) true).successful
          (webpConvert codec fs0 inputs (some source) (some targetDir) true).failed
          (webpConvert codec fs0 inputs (some source) (some targetDir) true).skipped) := by
  have hWends : ∀ n ∈ webpEntries (fs0.listing source), ends n ".webp" = true :=
    fun n hn => (List.mem_filter.mp hn).2
  have hsuf : ∀ n ∈ webpEntries (fs0.listing source), nameSuffix n = ".webp" :=
    fun n hn => nameSuffix_of_ends n (hWends n hn) (hno n hn)
  obtain ⟨m1, m2, m3, m4, m5, m6, m7, m8, m9, m10⟩ :=
    mainFold_run codec c source targetDir (fs0.listing source)
      ⟨fs0, inputs, 0, 0, 0, [], [], []⟩ hbase hlook hfreshm hnodupm hsepm
  obtain ⟨w1, w2, w3, w4, w5, w6, w7, w8, w9, w10⟩ :=
    webpFold_run codec c source targetDir (webpEntries (fs0.listing source))
      ⟨fs0, inputs, 0, 0, 0, [], [], []⟩
      (fun n hn => hbase n (List.mem_of_mem_filter hn)) hsuf hlook hfreshw
      hnodupw hsepw
  have hbadmem : bad ∈ (webpEntries (fs0.listing source)).filter
      (fun n => !exceptOk (mainOutcome codec c n)) :=
    List.mem_filter.mpr ⟨hbad, by simp [hbadm, exceptOk]⟩
  have hbadmemw : bad ∈ (webpEntries (fs0.listing source)).filter
      (fun n => !exceptOk (webpOutcome codec c n)) :=
    List.mem_filter.mpr ⟨hbad, by simp [hbadw, exceptOk]⟩
  rw [mainConvert_batch codec fs0 inputs source targetDir htd hdir,
    webpConvert_batch codec fs0 inputs source targetDir htd hdir]
  dsimp only
  refine ⟨?_, ?_, ?_, ?_, ?_, ?_, ?_, ?_, ?_, ?_, ?_, ?_⟩
  · rw [m7]
    refine List.mem_append.mpr (Or.inl (List.mem_append.mpr (Or.inr ?_)))
    have : mainLogLine codec c bad = "Failed to convert " ++ bad ++ ". Error: " ++ e.msg := by
      simp [mainLogLine, hbadm]
    exact this ▸ List.mem_map_of_mem (mainLogLine codec c) hbad
  · rw [m2]
    simp
  · rw [m2]
    have : 0 < mainErrCount codec c (webpEntries (fs0.listing source)) :=
      List.length_pos.mpr (List.ne_nil_of_mem hbadmem)
    omega
  · rw [m1]
    simp
  · rw [m8]
  · rw [List.getLast?_concat]
  · rw [w7]
    refine List.mem_append.mpr (Or.inl (List.mem_append.mpr (Or.inr ?_)))
    have hline : (if e.ioErr then "IOError for " ++ bad ++ ": " ++ e.msg
        else "Unexpected error for " ++ bad ++ ": " ++ e.msg)
        ∈ webpLogLines codec c bad := by
      by_cases hio : e.ioErr = true <;> simp [webpLogLines, hbadw, hio]
    exact List.mem_flatMap.mpr ⟨bad, hbad, hline⟩
  · rw [w2]
    simp
  · rw [w2]
    have : 0 < webpErrCount codec c (webpEntries (fs0.listing source)) :=
      List.length_pos.mpr (List.ne_nil_of_mem hbadmemw)
    omega
  · rw [w1]
    simp
  · rw [w8]
  · rw [List.getLast?_concat]

end WebpToPng

namespace WebpToPng

/-- Witness for C5: over `fsD`, the file `y.webp` is malformed and fails,
the error is logged with name and cause, and the run completes with the
summary line and the good file still converted. -/
theorem c5_error_containment_witness :
    ("Failed to convert y.webp. Error: cannot identify image file")
      ∈ (mainConvert codecB fsD [] "d" "t" true).log
    ∧ 1 ≤ (mainConvert codecB fsD [] "d" "t" true).failed
    ∧ ("Unexpected error for y.webp: cannot identify image file")
      ∈ (webpConvert codecB fsD [] (some "d") (some "t") true).log
    ∧ (mainConvert codecB fsD [] "d" "t" true).log.getLast?
      = some (mainSummary (mainConvert codecB fsD [] "d" "t" true).successful
          (mainConvert codecB fsD [] "d" "t" true).failed
          (mainConvert codecB fsD [] "d" "t" true).skipped) := by
  have h := c5_error_containment codecB
    (fun n => if n = "y.webp" then "BAD" else "W") fsD [] "d" "t" "y.webp"
    ⟨false, "cannot identify image file"⟩
    (by decide) (by decide) (by decide) (by decide) (by decide) (by decide)
    (by decide) (by decide) (by decide) (by decide) (by decide) (by decide)
    (by rfl) (by rfl)
  exact ⟨h.1, h.2.2.1, h.2.2.2.2.2.2.1, h.2.2.2.2.2.1⟩

/-- C9 counterexample: with identical explicit paths and the identical
operator response `"y"` at a collision, `src/main.py` skips (its replace
token is `r`) while `src/webp-to-png.py` replaces (its token is `y`), so
the final counts differ; the PNG compression levels also differ (1 vs 6). -/
theorem c9_counterexample :
    (mainConvert codecA fsC ["y"] "d/x.webp" "t" false).skipped = 1
    ∧ (mainConvert codecA fsC ["y"] "d/x.webp" "t" false).successful = 0
    ∧ (webpConvert codecA fsC ["y"] (some "d/x.webp") (some "t") false).skipped = 0
    ∧ (webpConvert codecA fsC ["y"] (some "d/x.webp") (some "t") false).successful = 1
    ∧ mainCompressLevel ≠ webpCompressLevel := by
  refine ⟨by decide, by decide, by decide, by decide, by decide⟩

/-- C9 (amended): with both paths explicit, a valid `.webp` source whose
base name contains `.webp` only as its final extension, an existing target
directory and no destination collision, the two scripts are equivalent up
to their differing compression levels: both write to the same destination
path and end with counts (1, 0, 0), `src/main.py` encoding at level 1 and
`src/webp-to-png.py` at level 6; at a collision their replace tokens differ
(`r` vs `y`). -/
theorem c9_script_equivalence (codec : Codec) (fs0 : FS) (inputs : List String)
    (source targetDir : String) (c0 png1 png6 : String) (stem : List Char)
    (htd : isDir fs0 targetDir = true)
    (hlook : lookupFile fs0 source = some c0)
    (hends : ends source ".webp" = true)
    (hname : (basename source).data = stem ++ ".webp".data)
    (hstem : stem ≠ [])
    (hocc : ∀ i, i < stem.length →
      (".webp".data.isPrefixOf ((stem ++ ".webp".data).drop i)) = false)
    (hfresh : pathExists fs0
      (osPathJoin targetDir (specDestName (basename source))) = false)
    (hok1 : codec mainCompressLevel c0 = Except.ok png1)
    (hok6 : codec webpCompressLevel c0 = Except.ok png6) :
    mainConvert codec fs0 inputs source targetDir false
      = { fs := writeFile fs0 (osPathJoin targetDir (specDestName (basename source))) png1
          inputs := inputs
          successful := 1, failed := 0, skipped := 0
          out := []
          err := []
          log := ["Successfully converted " ++ basename source ++ " to .png.",
                  mainSummary 1 0 0] }
    ∧ webpConvert codec fs0 inputs (some source) (some targetDir) false
      = { fs := writeFile fs0 (osPathJoin targetDir (specDestName (basename source))) png6
          inputs := inputs
          successful := 1, failed := 0, skipped := 0
          out := ["Converted: " ++ basename source]
          err := []
          log := [webpSummary 1 0 0] }
    ∧ mainCompressLevel = 1 ∧ webpCompressLevel = 6 := by
  have hbn : basename source = ⟨stem ++ ".webp".data⟩ := string_eq_of_data _ _ hname
  have hrep : pyReplace (basename source) ".webp" ".png" = specDestName (basename source) := by
    rw [hbn, pyReplace_unique stem hocc, specDestName_append]
  have hsufx : pathSuffix source = ".webp" := by
    rw [pathSuffix, hbn]
    exact nameSuffix_append_webp stem hstem
  have hendsbn : ends (basename source) ".webp" = true := by
    rw [hbn]
    exact List.isSuffixOf_iff_suffix.mpr ⟨stem, rfl⟩
  have hwsn : withSuffixName source ".png" = specDestName (basename source) := by
    rw [withSuffixName]
    refine nameWithSuffix_of_webp (basename source) ?_
    rw [hbn]
    exact nameSuffix_append_webp stem hstem
  have hisf : isFile fs0 source = true := by simp [isFile, hlook]
  refine ⟨?_, ?_, rfl, rfl⟩
  · have hstep := mainProcessFile_attempt codec ⟨fs0, inputs, 0, 0, 0, [], [], []⟩
      source targetDir hendsbn (by rw [hrep]; exact hfresh)
    have hatt := mainAttempt_ok codec ⟨fs0, inputs, 0, 0, 0, [], [], []⟩ source
      (osPathJoin targetDir (pyReplace (basename source) ".webp" ".png"))
      (basename source) png1
      (by simp only [openAndDecode, hlook]; exact hok1)
    simp only [mainConvert, mkdirs_of_isDir fs0 targetDir htd]
    rw [if_neg (by simp)]
    rw [if_pos (by simp [hisf, hends])]
    rw [hstep, hatt, hrep]
    rfl
  · have hstep := webpProcessFile_attempt codec ⟨fs0, inputs, 0, 0, 0, [], [], []⟩
      source targetDir hsufx (by rw [hwsn]; exact hfresh)
    have hatt := webpAttempt_ok codec ⟨fs0, inputs, 0, 0, 0, [], [], []⟩ source
      (osPathJoin targetDir (withSuffixName source ".png")) png6
      (by simp only [openAndDecode, hlook]; exact hok6)
    simp only [webpConvert, resolvePaths, pathExists_of_isDir fs0 targetDir htd,
      hisf, hsufx, Bool.false_and, Bool.true_and, Bool.and_self, decide_True,
      eq_self_iff_true, Bool.false_eq_true, if_true, if_false]
    rw [hstep, hatt, hwsn]
    rfl

end WebpToPng

namespace WebpToPng

/-- Witness for C9 (amended) on the concrete file `d/x.webp` over `fsA`. -/
theorem c9_script_equivalence_witness :
    mainConvert codecA fsA [] "d/x.webp" "t" false
      = { fs := writeFile fsA (osPathJoin "t" (specDestName (basename "d/x.webp"))) "PNG1W"
          inputs := ([] : List String)
          successful := 1, failed := 0, skipped := 0
          out := [], err := []
          log := ["Successfully converted " ++ basename "d/x.webp" ++ " to .png.",
                  mainSummary 1 0 0] }
    ∧ webpConvert codecA fsA [] (some "d/x.webp") (some "t") false
      = { fs := writeFile fsA (osPathJoin "t" (specDestName (basename "d/x.webp"))) "PNG6W"
          inputs := ([] : List String)
          successful := 1, failed := 0, skipped := 0
          out := ["Converted: " ++ basename "d/x.webp"], err := []
          log := [webpSummary 1 0 0] } :=
  ⟨(c9_script_equivalence codecA fsA [] "d/x.webp" "t" "W" "PNG1W" "PNG6W" "x".data
      (by decide) (by decide) (by decide) (by decide) (by decide) (by decide)
      (by decide) (by rfl) (by rfl)).1,
   (c9_script_equivalence codecA fsA [] "d/x.webp" "t" "W" "PNG1W" "PNG6W" "x".data
      (by decide) (by decide) (by decide) (by decide) (by decide) (by decide)
      (by decide) (by rfl) (by rfl)).2.1⟩

end WebpToPng
